import Mathlib

/-!
Shallow embedding of `src/camera.cpp` (the V4L2 capture core of camview).

The kernel/device side of every system call is modelled as a response
oracle: each ioctl call site receives the effective outcome that the
retrying wrapper `dev_ioctl` would eventually produce (the wrapper itself
is modelled separately, over the raw per-attempt result list, as
`dev_ioctl`).  Machine integers are `Nat` with an explicit `% 2^w`
wherever the C code narrows a wider value (u32 device fields stored into
`uint16_t` / `uint8_t` fields).  Resource actions (open, mmap, munmap,
close, queueing ioctls) are emitted as an event trace so that
release-ordering and leak properties can be stated.

Fidelity notes, each mirroring the C source:
* `device::device(int)` leaves `frame.bufcnt` / `frame.buf`
  uninitialized; no executed path reads them before `init_stream`
  assigns them, so the model zero-initializes.
* `frame.bufcnt` is `uint8_t`; the model uses `Nat` indices, faithful
  for buffer counts below 256 (all inputs exercised here use counts of
  at most 3).
* reading `dev_.frame.buf[index]` with an out-of-range device-reported
  index is undefined behaviour in C; the model totalizes it with a
  zero `buffer_view` default.  No claim depends on that case.
-/

namespace camera

/-- Pixel parameters exchanged with the caller (`struct params` in
`camera.h`): `w`,`h` are `uint16_t`, `fps` is `uint8_t`, `fmt` is a
`uint32_t` fourcc token. -/
structure params where
  w : Nat
  h : Nat
  fps : Nat
  fmt : Nat
deriving Repr, DecidableEq

/-- One mapped buffer (`struct buffer_view`): an address and a byte size. -/
structure buffer_view where
  data : Nat
  size : Nat
deriving Repr, DecidableEq

/-- Frame metadata held by the device object (`struct frame`). -/
structure frame_md where
  w : Nat
  h : Nat
  bufcnt : Nat
  buf : List buffer_view
deriving Repr, DecidableEq

/-- The fields of `struct v4l2_buffer` the program reads or writes. -/
structure v4l2_buffer where
  index : Nat
  bytesused : Nat
  sequence : Nat
  sec : Nat
  usec : Nat
deriving Repr, DecidableEq

/-- The zeroed `v4l2_buffer`, as produced by `memset(&buf, 0, ...)`. -/
def zero_buf : v4l2_buffer := ⟨0, 0, 0, 0, 0⟩

/-- The `class device` state: owned fd, frame metadata, and the buffer
descriptor used by the get/put frame protocol. -/
structure device where
  fd : Nat
  frame : frame_md
  buf : v4l2_buffer
deriving Repr, DecidableEq

/-- The caller-visible frame view (`struct image` in `camera.h`). -/
structure image where
  id : Nat
  w : Nat
  h : Nat
  data : Nat
  bytes : Nat
  sec : Nat
  nsec : Nat
deriving Repr, DecidableEq

/-- Resource/control events emitted by the model, in program order. -/
inductive Event where
  | openEv (fd : Nat)
  | mmapEv (idx addr size : Nat)
  | munmapEv (addr size : Nat)
  | closeEv (fd : Nat)
  | sFmtEv
  | reqbufsEv
  | querybufEv (i : Nat)
  | qbufEv (i : Nat)
  | dqbufEv
  | sParmEv
  | streamonEv
deriving Repr, DecidableEq

def is_munmap : Event → Bool
  | .munmapEv _ _ => true
  | _ => false

def is_close : Event → Bool
  | .closeEv _ => true
  | _ => false

def is_mmap : Event → Bool
  | .mmapEv _ _ _ => true
  | _ => false

def is_qbuf : Event → Bool
  | .qbufEv _ => true
  | _ => false

/-! ### The retrying ioctl wrapper (`dev_ioctl`, camera.cpp:55-66)

Modelled over the raw attempt results the repeated `v4l2_ioctl` calls
would produce, in order.  `none` means the attempt script ran out while
the wrapper was still retrying. -/

inductive errno where
  | eintr
  | eagain
  | other
deriving Repr, DecidableEq

inductive attempt where
  | ok
  | err (e : errno)
deriving Repr, DecidableEq

/-- An errno the `do/while` loop retries on: `EINTR` or `EAGAIN`. -/
def transient : errno → Bool
  | .eintr => true
  | .eagain => true
  | .other => false

/-- `dev_ioctl` (camera.cpp:55-66): retry while the attempt failed with a
transient errno; report `true` on success, `false` on any other failure. -/
def dev_ioctl : List attempt → Option Bool
  | [] => none
  | .ok :: _ => some true
  | .err e :: rest => if transient e then dev_ioctl rest else some false

/-- Every attempt in the list is a transient failure. -/
def all_transient (l : List attempt) : Bool :=
  l.all fun a =>
    match a with
    | .ok => false
    | .err e => transient e

/-! ### Device response oracle for stream construction -/

/-- Device reply to `VIDIOC_S_FMT`: the effective wrapper outcome and the
`fmt.fmt.pix` fields (u32) the kernel wrote back. -/
structure sfmt_reply where
  ok : Bool
  retW : Nat
  retH : Nat
  retFmt : Nat

/-- Device reply to `VIDIOC_REQBUFS`: outcome and the granted count the
kernel wrote into `req.count` (u32). -/
structure reqbufs_reply where
  ok : Bool
  retCount : Nat

/-- Device reply to `VIDIOC_QUERYBUF` for one index: outcome plus the
kernel-assigned buffer length and offset (u32). -/
structure querybuf_reply where
  ok : Bool
  length : Nat
  offset : Nat

/-- Outcome of one `v4l2_mmap` call: `ok = false` stands for
`MAP_FAILED`; `addr` is the value the call returned either way (the C
code stores it into the slot before checking it). -/
structure mmap_reply where
  ok : Bool
  addr : Nat

/-- Device reply to `VIDIOC_S_PARM`: outcome and the denominator the
kernel left in `timeperframe` (u32). -/
structure sparm_reply where
  ok : Bool
  retDenom : Nat

/-- All device/allocator responses consumed by `init_stream`. -/
structure init_env where
  sfmt : sfmt_reply
  reqbufs : reqbufs_reply
  querybuf : Nat → querybuf_reply
  mmap : Nat → mmap_reply
  qbuf : Nat → Bool
  sparm : sparm_reply
  calloc_ok : Bool

/-- Which step of stream construction failed. -/
inductive init_err where
  | sfmt_failed
  | format_unsupported
  | reqbufs_failed
  | calloc_failed
  | querybuf_failed (i : Nat)
  | mmap_failed (i : Nat)
  | qbuf_failed (i : Nat)
deriving Repr, DecidableEq

/-- Result of the buffer query/map loop. -/
structure map_out where
  err : Option init_err
  dev : device
  events : List Event
deriving Repr, DecidableEq

/-- Result of the enqueue loop. -/
structure enq_out where
  err : Option init_err
  events : List Event
deriving Repr, DecidableEq

/-- Result of `init_stream`. -/
structure init_out where
  err : Option init_err
  dev : device
  p : params
  events : List Event
deriving Repr, DecidableEq

/-- The query/map loop of `init_stream` (camera.cpp:151-172), mapping
buffers `i, i+1, ...` while `n` slots remain.  At entry
`dev.frame.bufcnt = i`; a successful iteration appends the slot written
by the C code and increments `bufcnt`; on `VIDIOC_QUERYBUF` failure
nothing is recorded; on `v4l2_mmap` failure the slot is written (with
the failed return value) but `bufcnt` is not advanced, exactly as in the
source. -/
def map_bufs (env : init_env) : Nat → Nat → device → map_out
  | _, 0, dev => ⟨none, dev, []⟩
  | i, n + 1, dev =>
    let q := env.querybuf i
    if q.ok = false then
      ⟨some (.querybuf_failed i), dev, [.querybufEv i]⟩
    else
      let len := q.length % 4294967296
      let m := env.mmap i
      let dev1 := { dev with frame :=
        { dev.frame with buf := dev.frame.buf ++ [⟨m.addr, len⟩] } }
      if m.ok = false then
        ⟨some (.mmap_failed i), dev1, [.querybufEv i]⟩
      else
        let dev2 := { dev1 with frame := { dev1.frame with bufcnt := i + 1 } }
        let r := map_bufs env (i + 1) n dev2
        ⟨r.err, r.dev, .querybufEv i :: .mmapEv i m.addr len :: r.events⟩

/-- The buffer slots a fully successful run of the query/map loop
records for indices `i, i+1, ...` over `n` slots: for each index the
kernel-assigned length (u32) and the mapped address. -/
def mapped_slots (env : init_env) : Nat → Nat → List buffer_view
  | _, 0 => []
  | i, n + 1 =>
    ⟨(env.mmap i).addr, (env.querybuf i).length % 4294967296⟩ ::
      mapped_slots env (i + 1) n

/-- The enqueue loop of `init_stream` (camera.cpp:174-184): submit slots
`i, i+1, ...` while `n` remain; stop at the first `VIDIOC_QBUF` failure. -/
def enqueue_bufs (env : init_env) : Nat → Nat → enq_out
  | _, 0 => ⟨none, []⟩
  | i, n + 1 =>
    if env.qbuf i then
      let r := enqueue_bufs env (i + 1) n
      ⟨r.err, .qbufEv i :: r.events⟩
    else
      ⟨some (.qbuf_failed i), [.qbufEv i]⟩

/-- `set_framerate` (camera.cpp:89-106): returns 0 when the
`VIDIOC_S_PARM` control operation fails, otherwise the denominator the
device left in the struct, narrowed to the `uint8_t` return type.  A
denominator different from the request only produces a warning. -/
def set_framerate (env : init_env) : Nat :=
  if env.sparm.ok = false then 0
  else env.sparm.retDenom % 256

/-- `init_stream` (camera.cpp:108-189).  Sends the caller's params as a
hint; rejects a changed pixel format; stores the device-returned
width/height (u32) into the `uint16_t` fields of `dev.frame` and
`params`; requests `BUFFERS_CNT = 2` buffers and then uses the count the
device wrote back; maps and enqueues each buffer; finally records the
`set_framerate` result into `p.fps`. -/
def init_stream (env : init_env) (dev : device) (p : params) : init_out :=
  if env.sfmt.ok = false then
    ⟨some .sfmt_failed, dev, p, [.sFmtEv]⟩
  else if env.sfmt.retFmt ≠ p.fmt then
    ⟨some .format_unsupported, dev, p, [.sFmtEv]⟩
  else
    let w16 := env.sfmt.retW % 65536
    let h16 := env.sfmt.retH % 65536
    let dev1 := { dev with frame := { dev.frame with w := w16, h := h16 } }
    let p1 := { p with w := w16, h := h16 }
    if env.reqbufs.ok = false then
      ⟨some .reqbufs_failed, dev1, p1, [.sFmtEv, .reqbufsEv]⟩
    else if env.calloc_ok = false then
      ⟨some .calloc_failed, dev1, p1, [.sFmtEv, .reqbufsEv]⟩
    else
      let count := env.reqbufs.retCount % 4294967296
      let dev2 := { dev1 with frame := { dev1.frame with bufcnt := 0, buf := [] } }
      let mr := map_bufs env 0 count dev2
      match mr.err with
      | some e => ⟨some e, mr.dev, p1, .sFmtEv :: .reqbufsEv :: mr.events⟩
      | none =>
        let er := enqueue_bufs env 0 mr.dev.frame.bufcnt
        match er.err with
        | some e =>
          ⟨some e, mr.dev, p1, .sFmtEv :: .reqbufsEv :: (mr.events ++ er.events)⟩
        | none =>
          let p2 := { p1 with fps := set_framerate env }
          ⟨none, mr.dev, p2,
            .sFmtEv :: .reqbufsEv :: (mr.events ++ er.events ++ [.sParmEv])⟩

/-! ### Factory, stream object, teardown -/

/-- Outcomes of `stat`/`S_ISCHR`/`v4l2_open` in `open_camera`
(camera.cpp:68-87). -/
structure open_env where
  stat_ok : Bool
  is_chr : Bool
  open_fd : Option Nat

/-- `open_camera`: fail on stat failure, on a non-character device, or
on a failed open; otherwise return the fd and record the open. -/
def open_camera (oe : open_env) : Option Nat × List Event :=
  if oe.stat_ok = false then (none, [])
  else if oe.is_chr = false then (none, [])
  else
    match oe.open_fd with
    | none => (none, [])
    | some fd => (some fd, [.openEv fd])

/-- The stream object (`class stream`): it owns the device state. -/
structure stream_st where
  dev : device
deriving Repr, DecidableEq

/-- Result of `create_stream`. -/
structure create_out where
  s : Option stream_st
  p : params
  events : List Event
deriving Repr, DecidableEq

/-- `create_stream` (camera.cpp:191-206).  Null path or open failure
return null.  Otherwise a `device` is heap-allocated and `init_stream`
runs; on its failure the function returns null WITHOUT deleting the
device — exactly as the source does — so no `munmapEv`/`closeEv` is
emitted on that path.  On success the stream takes ownership. -/
def create_stream (path_null : Bool) (oe : open_env) (env : init_env)
    (p : params) : create_out :=
  if path_null then ⟨none, p, []⟩
  else
    match open_camera oe with
    | (none, evs) => ⟨none, p, evs⟩
    | (some fd, evs) =>
      let dev0 : device := ⟨fd, ⟨0, 0, 0, []⟩, zero_buf⟩
      let r := init_stream env dev0 p
      match r.err with
      | some _ => ⟨none, r.p, evs ++ r.events⟩
      | none => ⟨some ⟨r.dev⟩, r.p, evs ++ r.events⟩

/-- `device::~device` (camera.cpp:43-49): unmap the first `bufcnt`
recorded slots, then close the fd. -/
def destroy_device (dev : device) : List Event :=
  ((dev.frame.buf.take dev.frame.bufcnt).map fun b =>
    Event.munmapEv b.data b.size) ++ [.closeEv dev.fd]

/-- `stream::~stream` (camera.cpp:209): `delete &dev_`, i.e. run the
device destructor, unconditionally. -/
def destroy_stream (s : stream_st) : List Event :=
  destroy_device s.dev

/-- `stream::start` (camera.cpp:211-220): issue `VIDIOC_STREAMON`;
return the wrapper outcome; device state untouched. -/
def start (ioctl_ok : Bool) (s : stream_st) : Bool × stream_st × List Event :=
  (ioctl_ok, s, [.streamonEv])

/-- `stream::get_frame_size` (camera.cpp:222-226). -/
def get_frame_size (s : stream_st) : Nat × Nat :=
  (s.dev.frame.w, s.dev.frame.h)

/-- `stream::put_frame` (camera.cpp:228-233): re-queue the held buffer
only when `bytesused` is non-zero; never clears `bytesused`; device
state unchanged. -/
def put_frame (s : stream_st) : stream_st × List Event :=
  if s.dev.buf.bytesused ≠ 0 then (s, [.qbufEv s.dev.buf.index])
  else (s, [])

/-! ### get_frame -/

/-- Result of one `poll` call inside the `get_frame` loop. -/
inductive poll_res where
  | timeout
  | err_intr
  | err_other
  | ready (pollin : Bool)
deriving Repr, DecidableEq

/-- A poll outcome the loop silently continues past: `EINTR`, or
readiness without `POLLIN` in `revents`. -/
def benign : poll_res → Bool
  | .err_intr => true
  | .ready b => !b
  | _ => false

/-- The poll script eventually reaches a timeout, every earlier outcome
being one the loop continues past. -/
def times_out : List poll_res → Bool
  | [] => false
  | .timeout :: _ => true
  | pr :: rest => benign pr && times_out rest

/-- Device reply to `VIDIOC_DQBUF`: outcome and the buffer fields the
kernel wrote (u32 except the timestamp words). -/
structure dqbuf_reply where
  ok : Bool
  index : Nat
  bytesused : Nat
  sequence : Nat
  sec : Nat
  usec : Nat

/-- Outcome of a `get_frame` call: the C return value, the stream state
after the call, the caller's image variable after the call, whether the
image-building dequeue branch ran, and the events emitted. -/
structure gf_result where
  ret : Bool
  s : stream_st
  out : image
  dequeued : Bool
  events : List Event
deriving Repr, DecidableEq

/-- The `while (1)` poll/dequeue loop of `get_frame`
(camera.cpp:241-276), consuming one poll outcome per iteration; `none`
when the script is exhausted with the loop still running.  On timeout
the loop breaks with the caller's image untouched, and the function
returns `!!out.bytes` — the caller's INCOMING `bytes` value.  On a
non-EINTR poll failure or a dequeue failure it returns false.  On a
successful dequeue it fills `dev_.buf` and the image and breaks. -/
def get_frame_loop (dq : dqbuf_reply) (s : stream_st) (out : image) :
    List poll_res → Option gf_result
  | [] => none
  | .timeout :: _ => some ⟨out.bytes != 0, s, out, false, []⟩
  | .err_intr :: rest => get_frame_loop dq s out rest
  | .err_other :: _ => some ⟨false, s, out, false, []⟩
  | .ready pollin :: rest =>
    if pollin = false then get_frame_loop dq s out rest
    else
      if dq.ok = false then
        some ⟨false, ⟨{ s.dev with buf := zero_buf }⟩, out, false, [.dqbufEv]⟩
      else
        let b : v4l2_buffer :=
          ⟨dq.index % 4294967296, dq.bytesused % 4294967296,
           dq.sequence % 4294967296, dq.sec, dq.usec⟩
        let bv := s.dev.frame.buf.getD b.index ⟨0, 0⟩
        let out1 : image :=
          ⟨b.sequence, s.dev.frame.w, s.dev.frame.h, bv.data, b.bytesused,
           dq.sec, dq.usec * 1000⟩
        some ⟨out1.bytes != 0, ⟨{ s.dev with buf := b }⟩, out1, true, [.dqbufEv]⟩

/-- `stream::get_frame` (camera.cpp:235-279): first invalidate
`dev_.buf.bytesused` for the `put_frame` protocol, then run the poll
loop. -/
def get_frame (polls : List poll_res) (dq : dqbuf_reply) (s : stream_st)
    (out : image) : Option gf_result :=
  let s0 : stream_st := ⟨{ s.dev with buf := { s.dev.buf with bytesused := 0 } }⟩
  get_frame_loop dq s0 out polls

/-- The part of a `get_frame` outcome that does not depend on the
incoming `dev_.buf` descriptor: return value, image, dequeue flag,
events, and the stable identity (fd, frame metadata) of the stream. -/
def gf_obs (r : gf_result) : Bool × image × Bool × List Event × Nat × frame_md :=
  (r.ret, r.out, r.dequeued, r.events, r.s.dev.fd, r.s.dev.frame)

/-! ### Concrete inputs used as test vectors -/

/-- Request hint: 640x480 at 30 fps, pixel-format token 42. -/
def p0 : params := ⟨640, 480, 30, 42⟩

/-- A path that stats as a character device and opens as fd 3. -/
def oe_ok : open_env := ⟨true, true, some 3⟩

/-- A device that accepts the request exactly: format 42 at 640x480,
grants the 2 requested buffers of 4096 bytes at distinct addresses,
accepts every queueing operation and the 30 fps request. -/
def env_ok : init_env :=
  ⟨⟨true, 640, 480, 42⟩, ⟨true, 2⟩, fun _ => ⟨true, 4096, 0⟩,
   fun i => ⟨true, 4096 + 4096 * i⟩, fun _ => true, ⟨true, 30⟩, true⟩

/-- Same device, but the `VIDIOC_S_PARM` framerate request fails. -/
def env_sparm_fail : init_env := { env_ok with sparm := ⟨false, 0⟩ }

/-- Same device, but every `VIDIOC_QBUF` enqueue fails. -/
def env_qbuf_fail : init_env := { env_ok with qbuf := fun _ => false }

/-- Same device, but it reports width 66176 = 65536 + 640 (a u32 value
that does not fit the program's `uint16_t` fields). -/
def env_bigw : init_env := { env_ok with sfmt := ⟨true, 66176, 480, 42⟩ }

/-- Same device, but `VIDIOC_REQBUFS` grants only 1 buffer. -/
def env_count1 : init_env := { env_ok with reqbufs := ⟨true, 1⟩ }

/-- The frame metadata a successful construction against `env_ok`
produces. -/
def fr_ok : frame_md := ⟨640, 480, 2, [⟨4096, 4096⟩, ⟨8192, 4096⟩]⟩

/-- The stream a successful construction against `env_ok` produces. -/
def s_ok : stream_st := ⟨⟨3, fr_ok, zero_buf⟩⟩

/-- A dequeue reply: buffer 0, 1000 bytes used, sequence 5. -/
def dq_ok : dqbuf_reply := ⟨true, 0, 1000, 5, 7, 8⟩

/-- A zero-initialized caller image variable. -/
def img_zero : image := ⟨0, 0, 0, 0, 0, 0, 0⟩

/-- A caller image variable holding stale data from an earlier frame:
its `bytes` field is 7 (non-zero). -/
def img_stale : image := ⟨9, 11, 12, 13, 7, 1, 2⟩

/-- The outcome of `get_frame [.ready true] dq_ok s_ok img_zero`. -/
def r_c8 : gf_result :=
  ⟨true, ⟨⟨3, fr_ok, ⟨0, 1000, 5, 7, 8⟩⟩⟩, ⟨5, 640, 480, 4096, 1000, 7, 8000⟩,
   true, [.dqbufEv]⟩

/-- A stream holding a dequeued-but-unreturned buffer: slot 1, 5 bytes
used. -/
def s_pending : stream_st := ⟨⟨3, fr_ok, ⟨1, 5, 0, 0, 0⟩⟩⟩

/-- The freshly heap-allocated device state `create_stream` hands to
`init_stream` for fd 3. -/
def dev_fresh : device := ⟨3, ⟨0, 0, 0, []⟩, zero_buf⟩

/-! ## Theorems -/

/-- Claim C7: the retrying ioctl wrapper retries the operation as long
as it fails with EINTR or EAGAIN, reports success when the operation
eventually succeeds, and surfaces any other failure immediately (the
result does not depend on the attempts that would follow it). -/
theorem dev_ioctl_retry_behavior (pre rest : List attempt) (e : errno)
    (hpre : all_transient pre = true) (he : transient e = false) :
    dev_ioctl (pre ++ attempt.ok :: rest) = some true ∧
    dev_ioctl (pre ++ attempt.err e :: rest) = some false := by
  induction pre with
  | nil => simp [dev_ioctl, he]
  | cons a pre ih =>
    cases a with
    | ok => simp [all_transient] at hpre
    | err e2 =>
      have hsplit : transient e2 = true ∧ all_transient pre = true := by
        simpa [all_transient, List.all_cons] using hpre
      simpa [dev_ioctl, hsplit.1] using ih hsplit.2

/-- Witness for C7 at a concrete attempt script: two transient failures
followed by the decisive attempt. -/
theorem dev_ioctl_retry_behavior_witness :
    dev_ioctl ([attempt.err .eintr, attempt.err .eagain] ++ attempt.ok :: []) =
      some true ∧
    dev_ioctl ([attempt.err .eintr, attempt.err .eagain] ++
      attempt.err .other :: []) = some false :=
  dev_ioctl_retry_behavior [attempt.err .eintr, attempt.err .eagain] []
    .other (by decide) (by decide)

/-- Claim C9: stream destruction first unmaps every buffer recorded as
mapped and only then closes the device handle — the close event is the
last event, every recorded mapping's unmap event strictly precedes it,
and no close occurs earlier — for every device state whatsoever. -/
theorem destroy_unmaps_then_closes (s : stream_st) :
    (∀ b ∈ s.dev.frame.buf.take s.dev.frame.bufcnt,
      Event.munmapEv b.data b.size ∈ (destroy_stream s).dropLast) ∧
    (destroy_stream s).getLast? = some (Event.closeEv s.dev.fd) ∧
    ∀ e ∈ (destroy_stream s).dropLast, is_close e = false := by
  have hdl : (destroy_stream s).dropLast =
      (s.dev.frame.buf.take s.dev.frame.bufcnt).map fun b =>
        Event.munmapEv b.data b.size := by
    simp [destroy_stream, destroy_device]
  refine ⟨?_, ?_, ?_⟩
  · intro b hb
    rw [hdl]
    exact List.mem_map_of_mem _ hb
  · simp [destroy_stream, destroy_device]
  · intro e he
    rw [hdl] at he
    obtain ⟨b, _, rfl⟩ := List.mem_map.mp he
    rfl

/-- Witness for C9 on a fully initialized stream state. -/
theorem destroy_unmaps_then_closes_witness :
    (destroy_stream s_ok).getLast? = some (Event.closeEv s_ok.dev.fd) :=
  (destroy_unmaps_then_closes s_ok).2.1

/-- Claim C10: `put_frame` never clears the pending-return marker, so
when the last `get_frame` left a non-empty buffer descriptor, every
`put_frame` call — including a second one with no intervening
`get_frame` — re-submits the same buffer slot to the device queue. -/
theorem put_frame_not_idempotent (s : stream_st)
    (h : s.dev.buf.bytesused ≠ 0) :
    put_frame s = (s, [Event.qbufEv s.dev.buf.index]) ∧
    (put_frame s).1.dev.buf.bytesused = s.dev.buf.bytesused ∧
    put_frame (put_frame s).1 = (s, [Event.qbufEv s.dev.buf.index]) := by
  simp [put_frame, h]

/-- Witness for C10: a stream holding buffer 1 with 5 bytes used
re-queues slot 1 on both the first and the second `put_frame`. -/
theorem put_frame_not_idempotent_witness :
    put_frame s_pending = (s_pending, [Event.qbufEv 1]) ∧
    (put_frame s_pending).1.dev.buf.bytesused = 5 ∧
    put_frame (put_frame s_pending).1 = (s_pending, [Event.qbufEv 1]) :=
  put_frame_not_idempotent s_pending (by decide)

/-! ### Helper lemmas about the get_frame loop -/

/-- The poll/dequeue loop never touches the fd or the frame metadata. -/
theorem get_frame_loop_stable (dq : dqbuf_reply) :
    ∀ polls s out r, get_frame_loop dq s out polls = some r →
      r.s.dev.frame = s.dev.frame ∧ r.s.dev.fd = s.dev.fd := by
  intro polls
  induction polls with
  | nil => intro s out r h; simp [get_frame_loop] at h
  | cons pr rest ih =>
    intro s out r h
    cases pr with
    | timeout =>
      rw [get_frame_loop] at h
      cases h
      exact ⟨rfl, rfl⟩
    | err_intr =>
      rw [get_frame_loop] at h
      exact ih s out r h
    | err_other =>
      rw [get_frame_loop] at h
      cases h
      exact ⟨rfl, rfl⟩
    | ready pollin =>
      rw [get_frame_loop] at h
      cases pollin with
      | false =>
        simp only [if_pos rfl] at h
        exact ih s out r h
      | true =>
        rw [if_neg (by simp : Not (true = false))] at h
        by_cases hdq : dq.ok = false
        · rw [if_pos hdq] at h
          cases h
          exact ⟨rfl, rfl⟩
        · rw [if_neg hdq] at h
          cases h
          exact ⟨rfl, rfl⟩

/-- `get_frame` never touches the fd or the frame metadata. -/
theorem get_frame_stable (polls : List poll_res) (dq : dqbuf_reply)
    (s : stream_st) (out : image) (r : gf_result)
    (h : get_frame polls dq s out = some r) :
    r.s.dev.frame = s.dev.frame ∧ r.s.dev.fd = s.dev.fd :=
  by
  rw [get_frame] at h
  exact get_frame_loop_stable dq polls
    ⟨{ s.dev with buf := { s.dev.buf with bytesused := 0 } }⟩ out r h

/-- The observable behaviour of the poll/dequeue loop does not depend on
the incoming `dev_.buf` descriptor. -/
theorem get_frame_loop_buf_irrelevant (dq : dqbuf_reply) :
    ∀ polls fd fr b1 b2 out,
      Option.map gf_obs (get_frame_loop dq ⟨⟨fd, fr, b1⟩⟩ out polls) =
      Option.map gf_obs (get_frame_loop dq ⟨⟨fd, fr, b2⟩⟩ out polls) := by
  intro polls
  induction polls with
  | nil => intro fd fr b1 b2 out; simp [get_frame_loop]
  | cons pr rest ih =>
    intro fd fr b1 b2 out
    cases pr with
    | timeout => simp [get_frame_loop, gf_obs]
    | err_intr => rw [get_frame_loop, get_frame_loop]; exact ih fd fr b1 b2 out
    | err_other => simp [get_frame_loop, gf_obs]
    | ready pollin =>
      cases pollin with
      | false =>
        rw [get_frame_loop, get_frame_loop]
        simp only [if_pos rfl]
        exact ih fd fr b1 b2 out
      | true =>
        rw [get_frame_loop, get_frame_loop]
        by_cases hdq : dq.ok = false <;>
          simp [hdq, gf_obs]

/-- The observable behaviour of `get_frame` depends only on the stream's
fd and frame metadata. -/
theorem get_frame_obs_eq (polls : List poll_res) (dq : dqbuf_reply)
    (s1 s2 : stream_st) (out : image)
    (hfd : s1.dev.fd = s2.dev.fd) (hfr : s1.dev.frame = s2.dev.frame) :
    Option.map gf_obs (get_frame polls dq s1 out) =
    Option.map gf_obs (get_frame polls dq s2 out) := by
  obtain ⟨⟨fd1, fr1, b1⟩⟩ := s1
  obtain ⟨⟨fd2, fr2, b2⟩⟩ := s2
  simp only at hfd hfr
  subst hfd hfr
  rw [get_frame, get_frame]
  exact get_frame_loop_buf_irrelevant dq polls fd1 fr1 _ _ out

/-- After any loop outcome, the pending-return marker equals the
dequeued byte count when the dequeue branch ran, and stays zero
otherwise (given it was zero at loop entry, as `get_frame` ensures). -/
theorem get_frame_loop_marker (dq : dqbuf_reply) :
    ∀ polls s out r, s.dev.buf.bytesused = 0 →
      get_frame_loop dq s out polls = some r →
      r.s.dev.buf.bytesused = if r.dequeued = true then r.out.bytes else 0 := by
  intro polls
  induction polls with
  | nil => intro s out r _ h; simp [get_frame_loop] at h
  | cons pr rest ih =>
    intro s out r hs h
    cases pr with
    | timeout =>
      rw [get_frame_loop] at h
      cases h
      simpa using hs
    | err_intr =>
      rw [get_frame_loop] at h
      exact ih s out r hs h
    | err_other =>
      rw [get_frame_loop] at h
      cases h
      simpa using hs
    | ready pollin =>
      rw [get_frame_loop] at h
      cases pollin with
      | false =>
        simp only [if_pos rfl] at h
        exact ih s out r hs h
      | true =>
        rw [if_neg (by simp : Not (true = false))] at h
        by_cases hdq : dq.ok = false
        · rw [if_pos hdq] at h
          cases h
          simp [zero_buf]
        · rw [if_neg hdq] at h
          cases h
          simp

/-- A poll script satisfying `times_out` makes the loop break out with
the caller's image untouched, no state change, no dequeue and no
events. -/
theorem get_frame_loop_times_out (dq : dqbuf_reply) :
    ∀ polls s out, times_out polls = true →
      get_frame_loop dq s out polls =
        some ⟨out.bytes != 0, s, out, false, []⟩ := by
  intro polls
  induction polls with
  | nil => intro s out h; simp [times_out] at h
  | cons pr rest ih =>
    intro s out h
    cases pr with
    | timeout => rw [get_frame_loop]
    | err_intr =>
      rw [get_frame_loop]
      exact ih s out (by simpa [times_out, benign] using h)
    | err_other => simp [times_out, benign] at h
    | ready pollin =>
      cases pollin with
      | false =>
        rw [get_frame_loop]
        simp only [if_pos rfl]
        exact ih s out (by simpa [times_out, benign] using h)
      | true => simp [times_out, benign] at h

/-- Claim C3 (evidence of the divergence): with the fixed 1000 ms poll
timing out and the caller's image variable still holding a stale
non-zero `bytes` field, `get_frame` performs no dequeue yet returns
`true` — because the C code returns `!!out.bytes` on the timeout path
without ever writing `out` — where the claim and spec require a `false`
("no frame") result. -/
theorem get_frame_timeout_returns_stale_true :
    Option.map (fun r => (r.ret, r.dequeued, r.out))
        (get_frame [poll_res.timeout] dq_ok s_ok img_stale) =
      some (true, false, img_stale) := by decide

/-- Claim C5: `get_frame` invalidates the pending-return marker before
anything else, so after any call that did not obtain a non-empty frame
(timeout included) the marker is zero, a subsequent `put_frame` is a
no-op (no enqueue issued, state unchanged), and a second `get_frame`
behaves exactly as a fresh request on the original stream. -/
theorem get_frame_no_frame_clears_pending (polls : List poll_res)
    (dq : dqbuf_reply) (s : stream_st) (out : image) (r : gf_result)
    (hr : get_frame polls dq s out = some r)
    (hnf : r.dequeued = false ∨ r.out.bytes = 0) :
    r.s.dev.buf.bytesused = 0 ∧
    put_frame r.s = (r.s, []) ∧
    ∀ polls2 dq2 out2,
      Option.map gf_obs (get_frame polls2 dq2 r.s out2) =
      Option.map gf_obs (get_frame polls2 dq2 s out2) := by
  have hmark := get_frame_loop_marker dq polls _ out r (by simp) hr
  have hzero : r.s.dev.buf.bytesused = 0 := by
    rcases hnf with hnf | hnf
    · simpa [hnf] using hmark
    · rcases h : r.dequeued with _ | _ <;> simp [h, hnf] at hmark <;> simp [hmark, hnf]
  refine ⟨hzero, by simp [put_frame, hzero], ?_⟩
  intro polls2 dq2 out2
  have hst := get_frame_stable polls dq _ out r hr
  exact get_frame_obs_eq polls2 dq2 r.s s out2 (by simp [hst.2]) (by simp [hst.1])

/-- Witness for C5: a timed-out `get_frame` on a fresh stream leaves the
marker cleared and makes `put_frame` a no-op. -/
theorem get_frame_no_frame_clears_pending_witness :
    (⟨false, s_ok, img_zero, false, []⟩ : gf_result).s.dev.buf.bytesused = 0 ∧
    put_frame (⟨false, s_ok, img_zero, false, []⟩ : gf_result).s =
      ((⟨false, s_ok, img_zero, false, []⟩ : gf_result).s, []) :=
  ⟨(get_frame_no_frame_clears_pending [poll_res.timeout] dq_ok s_ok img_zero
      ⟨false, s_ok, img_zero, false, []⟩ (by decide) (Or.inl rfl)).1,
   (get_frame_no_frame_clears_pending [poll_res.timeout] dq_ok s_ok img_zero
      ⟨false, s_ok, img_zero, false, []⟩ (by decide) (Or.inl rfl)).2.1⟩

/-- The dequeue branch of the loop stamps the stream's frame metadata
width/height onto the produced image. -/
theorem get_frame_loop_image_size (dq : dqbuf_reply) :
    ∀ polls s out r, get_frame_loop dq s out polls = some r →
      r.dequeued = true →
      r.out.w = s.dev.frame.w ∧ r.out.h = s.dev.frame.h := by
  intro polls
  induction polls with
  | nil => intro s out r h; simp [get_frame_loop] at h
  | cons pr rest ih =>
    intro s out r h hd
    cases pr with
    | timeout =>
      rw [get_frame_loop] at h
      cases h
      simp at hd
    | err_intr =>
      rw [get_frame_loop] at h
      exact ih s out r h hd
    | err_other =>
      rw [get_frame_loop] at h
      cases h
      simp at hd
    | ready pollin =>
      rw [get_frame_loop] at h
      cases pollin with
      | false =>
        simp only [if_pos rfl] at h
        exact ih s out r h hd
      | true =>
        rw [if_neg (by simp : Not (true = false))] at h
        by_cases hdq : dq.ok = false
        · rw [if_pos hdq] at h
          cases h
          simp at hd
        · rw [if_neg hdq] at h
          cases h
          exact ⟨rfl, rfl⟩

/-- Claim C8: every image produced by a `get_frame` whose dequeue branch
ran carries exactly the width and height that `get_frame_size` reports,
and those dimensions are unchanged by `get_frame`, `start` and
`put_frame` — stable for the stream's lifetime. -/
theorem image_size_equals_negotiated (polls : List poll_res)
    (dq : dqbuf_reply) (s : stream_st) (out : image) (r : gf_result)
    (hr : get_frame polls dq s out = some r) (hd : r.dequeued = true) :
    r.out.w = (get_frame_size s).1 ∧ r.out.h = (get_frame_size s).2 ∧
    get_frame_size r.s = get_frame_size s ∧
    (∀ ok, get_frame_size (start ok s).2.1 = get_frame_size s) ∧
    get_frame_size (put_frame s).1 = get_frame_size s := by
  have hsz := get_frame_loop_image_size dq polls _ out r hr hd
  have hst := get_frame_stable polls dq s out r hr
  refine ⟨by simpa [get_frame_size] using hsz.1,
          by simpa [get_frame_size] using hsz.2,
          by simp [get_frame_size, hst.1], fun ok => rfl, ?_⟩
  unfold put_frame
  split <;> rfl

/-- Witness for C8: a successful dequeue on the `env_ok` stream yields a
640x480 image, matching `get_frame_size`. -/
theorem image_size_equals_negotiated_witness :
    r_c8.out.w = (get_frame_size s_ok).1 ∧
    r_c8.out.h = (get_frame_size s_ok).2 :=
  ⟨(image_size_equals_negotiated [poll_res.ready true] dq_ok s_ok img_zero
      r_c8 (by decide) rfl).1,
   (image_size_equals_negotiated [poll_res.ready true] dq_ok s_ok img_zero
      r_c8 (by decide) rfl).2.1⟩

/-! ### Helper lemmas about the construction loops -/

/-- If the query/map loop finished without error, every queried and
mapped index's control operation succeeded. -/
theorem map_bufs_none_ops (env : init_env) :
    ∀ n i dev, (map_bufs env i n dev).err = none →
      ∀ j, j < n → (env.querybuf (i + j)).ok = true ∧
        (env.mmap (i + j)).ok = true := by
  intro n
  induction n with
  | zero => intro i dev _ j hj; exact absurd hj (Nat.not_lt_zero j)
  | succ n ih =>
    intro i dev h j hj
    rw [map_bufs] at h
    by_cases hq : (env.querybuf i).ok = false
    · simp [hq] at h
    · by_cases hm : (env.mmap i).ok = false
      · simp [hq, hm] at h
      · simp only [Bool.not_eq_false] at hq hm
        simp [hq, hm] at h
        cases j with
        | zero => simpa using ⟨hq, hm⟩
        | succ j =>
          rw [show i + (j + 1) = i + 1 + j from by omega]
          exact ih (i + 1) _ h j (by omega)

/-- If the query/map loop finished without error, the enqueue loop ran
over `i + n` slots: the buffer counter ends at `i + n`. -/
theorem map_bufs_none_bufcnt (env : init_env) :
    ∀ n i dev, dev.frame.bufcnt = i → (map_bufs env i n dev).err = none →
      (map_bufs env i n dev).dev.frame.bufcnt = i + n := by
  intro n
  induction n with
  | zero => intro i dev hc _; simpa [map_bufs] using hc
  | succ n ih =>
    intro i dev hc h
    rw [map_bufs] at h ⊢
    by_cases hq : (env.querybuf i).ok = false
    · simp [hq] at h
    · by_cases hm : (env.mmap i).ok = false
      · simp [hq, hm] at h
      · simp only [Bool.not_eq_false] at hq hm
        simp [hq, hm] at h ⊢
        have := ih (i + 1) _ rfl h
        rw [this]
        omega

/-- If the enqueue loop finished without error, every enqueue succeeded. -/
theorem enqueue_bufs_none_ops (env : init_env) :
    ∀ n i, (enqueue_bufs env i n).err = none →
      ∀ j, j < n → env.qbuf (i + j) = true := by
  intro n
  induction n with
  | zero => intro i _ j hj; exact absurd hj (Nat.not_lt_zero j)
  | succ n ih =>
    intro i h j hj
    rw [enqueue_bufs] at h
    by_cases hq : env.qbuf i = true
    · simp [hq] at h
      cases j with
      | zero => simpa using hq
      | succ j =>
        rw [show i + (j + 1) = i + 1 + j from by omega]
        exact ih (i + 1) h j (by omega)
    · simp [hq] at h

/-- The query/map loop never reports a format error. -/
theorem map_bufs_err_not_fmt (env : init_env) :
    ∀ n i dev,
      (map_bufs env i n dev).err ≠ some init_err.format_unsupported := by
  intro n
  induction n with
  | zero => intro i dev; simp [map_bufs]
  | succ n ih =>
    intro i dev
    rw [map_bufs]
    by_cases hq : (env.querybuf i).ok = false
    · simp [hq]
    · by_cases hm : (env.mmap i).ok = false
      · simp [hq, hm]
      · simpa [hq, hm] using ih (i + 1) _

/-- The enqueue loop never reports a format error. -/
theorem enqueue_bufs_err_not_fmt (env : init_env) :
    ∀ n i, (enqueue_bufs env i n).err ≠ some init_err.format_unsupported := by
  intro n
  induction n with
  | zero => intro i; simp [enqueue_bufs]
  | succ n ih =>
    intro i
    rw [enqueue_bufs]
    by_cases hq : env.qbuf i = true
    · simpa [hq] using ih (i + 1)
    · simp [hq]

/-- Full characterization of a successful query/map loop run: no error,
counter advanced to `i + n`, width/height/fd/descriptor untouched, and
buffer slots extended by exactly the queried length and mapped address
of each index. -/
theorem map_bufs_ok_spec (env : init_env) :
    ∀ n i dev, dev.frame.bufcnt = i →
      (∀ j, j < n → (env.querybuf (i + j)).ok = true ∧
        (env.mmap (i + j)).ok = true) →
      (map_bufs env i n dev).err = none ∧
      (map_bufs env i n dev).dev.frame.bufcnt = i + n ∧
      (map_bufs env i n dev).dev.frame.w = dev.frame.w ∧
      (map_bufs env i n dev).dev.frame.h = dev.frame.h ∧
      (map_bufs env i n dev).dev.fd = dev.fd ∧
      (map_bufs env i n dev).dev.buf = dev.buf ∧
      (map_bufs env i n dev).dev.frame.buf =
        dev.frame.buf ++ mapped_slots env i n := by
  intro n
  induction n with
  | zero => intro i dev hc _; simp [map_bufs, mapped_slots, hc]
  | succ n ih =>
    intro i dev hc h
    have hq0 : (env.querybuf i).ok = true := by
      simpa using (h 0 (Nat.succ_pos n)).1
    have hm0 : (env.mmap i).ok = true := by
      simpa using (h 0 (Nat.succ_pos n)).2
    have hsh : ∀ j, j < n → (env.querybuf (i + 1 + j)).ok = true ∧
        (env.mmap (i + 1 + j)).ok = true := by
      intro j hj
      rw [show i + 1 + j = i + (j + 1) from by omega]
      exact h (j + 1) (by omega)
    have IH := ih (i + 1)
      ⟨dev.fd, ⟨dev.frame.w, dev.frame.h, i + 1,
        dev.frame.buf ++
          [⟨(env.mmap i).addr, (env.querybuf i).length % 4294967296⟩]⟩,
        dev.buf⟩ rfl hsh
    rw [map_bufs]
    simp [hq0, hm0]
    refine ⟨IH.1, ?_, IH.2.2.1, IH.2.2.2.1, IH.2.2.2.2.1, IH.2.2.2.2.2.1, ?_⟩
    · rw [IH.2.1]; omega
    · rw [IH.2.2.2.2.2.2, mapped_slots]
      simp

/-- A run of the enqueue loop over indices whose enqueues all succeed
reports no error. -/
theorem enqueue_bufs_ok_spec (env : init_env) :
    ∀ n i, (∀ j, j < n → env.qbuf (i + j) = true) →
      (enqueue_bufs env i n).err = none := by
  intro n
  induction n with
  | zero => intro i _; simp [enqueue_bufs]
  | succ n ih =>
    intro i h
    have h0 : env.qbuf i = true := by simpa using h 0 (Nat.succ_pos n)
    rw [enqueue_bufs]
    simp [h0]
    exact ih (i + 1) fun j hj => by
      rw [show i + 1 + j = i + (j + 1) from by omega]
      exact h (j + 1) (by omega)

/-- Everything a successful `init_stream` run implies: every control
operation up to and including the enqueue loop succeeded, and the
returned params carry the requested format, the truncated device
dimensions and the `set_framerate` result. -/
theorem init_stream_none_spec (env : init_env) (dev : device) (p : params)
    (h : (init_stream env dev p).err = none) :
    env.sfmt.ok = true ∧ env.sfmt.retFmt = p.fmt ∧ env.reqbufs.ok = true ∧
    env.calloc_ok = true ∧
    (∀ j, j < env.reqbufs.retCount % 4294967296 →
      (env.querybuf j).ok = true ∧ (env.mmap j).ok = true ∧
        env.qbuf j = true) ∧
    (init_stream env dev p).p.fps = set_framerate env ∧
    (init_stream env dev p).p.fmt = p.fmt ∧
    (init_stream env dev p).p.w = env.sfmt.retW % 65536 ∧
    (init_stream env dev p).p.h = env.sfmt.retH % 65536 := by
  unfold init_stream at h
  split at h
  · simp at h
  · split at h
    · simp at h
    · rename_i h1 h2
      rw [not_not] at h2
      simp only [] at h
      split at h
      · simp at h
      · split at h
        · simp at h
        · rename_i h3 h4
          try simp only [] at h
          split at h
          · simp at h
          · rename_i hmr
            try simp only [] at h
            split at h
            · simp at h
            · rename_i her
              simp only [Bool.not_eq_false] at h1 h3 h4
              try simp at hmr her
              have hcnt := map_bufs_none_bufcnt env _ 0 _ rfl hmr
              rw [hcnt] at her
              simp at her
              have hops : ∀ j, j < env.reqbufs.retCount % 4294967296 →
                  (env.querybuf j).ok = true ∧ (env.mmap j).ok = true ∧
                    env.qbuf j = true := by
                intro j hj
                have hqm := map_bufs_none_ops env _ 0 _ hmr j hj
                have hqb := enqueue_bufs_none_ops env _ 0 her j hj
                rw [Nat.zero_add] at hqm hqb
                exact ⟨hqm.1, hqm.2, hqb⟩
              have hP : (init_stream env dev p).p =
                  ⟨env.sfmt.retW % 65536, env.sfmt.retH % 65536,
                    set_framerate env, p.fmt⟩ := by
                rw [init_stream]
                simp [h1, h2, h3, h4, hmr, her, hcnt]
              exact ⟨h1, h2, h3, h4, hops, by rw [hP], by rw [hP],
                by rw [hP], by rw [hP]⟩

/-- `init_stream` reports `format_unsupported` exactly when the
`VIDIOC_S_FMT` control operation succeeded but the device's returned
pixel-format token differs from the request. -/
theorem init_stream_fmt_iff (env : init_env) (dev : device) (p : params) :
    (init_stream env dev p).err = some init_err.format_unsupported ↔
      env.sfmt.ok = true ∧ env.sfmt.retFmt ≠ p.fmt := by
  constructor
  · intro h
    unfold init_stream at h
    split at h
    · simp at h
    · split at h
      · rename_i h1 h2
        exact ⟨by simpa [Bool.not_eq_false] using h1, h2⟩
      · exfalso
        try simp only [] at h
        split at h
        · simp at h
        · split at h
          · simp at h
          · try simp only [] at h
            split at h
            · rename_i e hmr
              simp at h
              subst h
              exact map_bufs_err_not_fmt env _ 0 _ hmr
            · rename_i hmr
              try simp only [] at h
              split at h
              · rename_i e her
                simp at h
                subst h
                exact enqueue_bufs_err_not_fmt env _ 0 her
              · simp at h
  · rintro ⟨h1, h2⟩
    rw [init_stream]
    simp [h1, h2]

/-- A `create_stream` call that produced a stream opened some fd and ran
`init_stream` to completion on a freshly allocated device; the returned
params are exactly those `init_stream` produced. -/
theorem create_stream_some_inv (pn : Bool) (oe : open_env) (env : init_env)
    (p : params) (h : (create_stream pn oe env p).s.isSome = true) :
    ∃ fd, oe.open_fd = some fd ∧
      (init_stream env ⟨fd, ⟨0, 0, 0, []⟩, zero_buf⟩ p).err = none ∧
      (create_stream pn oe env p).p =
        (init_stream env ⟨fd, ⟨0, 0, 0, []⟩, zero_buf⟩ p).p := by
  cases pn with
  | true => simp [create_stream] at h
  | false =>
    unfold create_stream at h
    rw [if_neg (by simp)] at h
    split at h
    · simp at h
    · rename_i fd evs hoc
      try simp only [] at h
      split at h
      · simp at h
      · rename_i hinit
        refine ⟨fd, ?_, hinit, ?_⟩
        · unfold open_camera at hoc
          split at hoc
          · simp at hoc
          · split at hoc
            · simp at hoc
            · split at hoc
              · simp at hoc
              · rename_i fd2 hfd
                simp at hoc
                rw [hfd, hoc.1]
        · unfold create_stream
          rw [if_neg (by simp), hoc]
          simp [hinit]

/-- A successful construction pipeline: open succeeds with `fd`, the
initialization succeeds, and `create_stream` returns the stream built
from the device `init_stream` produced, along with its params. -/
theorem create_stream_ok_spec (oe : open_env) (env : init_env) (p : params)
    (fd : Nat) (h1 : oe.stat_ok = true) (h2 : oe.is_chr = true)
    (h3 : oe.open_fd = some fd)
    (hinit : (init_stream env ⟨fd, ⟨0, 0, 0, []⟩, zero_buf⟩ p).err = none) :
    (create_stream false oe env p).s =
      some ⟨(init_stream env ⟨fd, ⟨0, 0, 0, []⟩, zero_buf⟩ p).dev⟩ ∧
    (create_stream false oe env p).p =
      (init_stream env ⟨fd, ⟨0, 0, 0, []⟩, zero_buf⟩ p).p := by
  have hoc : open_camera oe = (some fd, [.openEv fd]) := by
    unfold open_camera
    simp [h1, h2, h3]
  unfold create_stream
  rw [if_neg (by simp), hoc]
  simp [hinit]

/-- Characterization of the device state a fully successful
`init_stream` produces: the buffer counter equals the device-granted
count, the recorded slots are exactly the queried/mapped ones, the
dimensions are the truncated device answer, and the fd is untouched. -/
theorem init_stream_ok_spec (env : init_env) (dev : device) (p : params)
    (h1 : env.sfmt.ok = true) (h2 : env.sfmt.retFmt = p.fmt)
    (h3 : env.reqbufs.ok = true) (h4 : env.calloc_ok = true)
    (h5 : ∀ j, j < env.reqbufs.retCount % 4294967296 →
      (env.querybuf j).ok = true ∧ (env.mmap j).ok = true)
    (h6 : ∀ j, j < env.reqbufs.retCount % 4294967296 →
      env.qbuf j = true) :
    (init_stream env dev p).err = none ∧
    (init_stream env dev p).dev.frame.bufcnt =
      env.reqbufs.retCount % 4294967296 ∧
    (init_stream env dev p).dev.frame.buf =
      mapped_slots env 0 (env.reqbufs.retCount % 4294967296) ∧
    (init_stream env dev p).dev.frame.w = env.sfmt.retW % 65536 ∧
    (init_stream env dev p).dev.frame.h = env.sfmt.retH % 65536 ∧
    (init_stream env dev p).dev.fd = dev.fd := by
  have hm := map_bufs_ok_spec env (env.reqbufs.retCount % 4294967296) 0
    ⟨dev.fd, ⟨env.sfmt.retW % 65536, env.sfmt.retH % 65536, 0, []⟩, dev.buf⟩
    rfl (fun j hj => by rw [Nat.zero_add]; exact h5 j hj)
  have he := enqueue_bufs_ok_spec env (env.reqbufs.retCount % 4294967296) 0
    (fun j hj => by rw [Nat.zero_add]; exact h6 j hj)
  rw [init_stream]
  simp only [h1, h2]
  simp [h3, h4, hm.1, hm.2.1, hm.2.2.1, hm.2.2.2.1, hm.2.2.2.2.1,
    hm.2.2.2.2.2.2, he]

/-- Claim C1 (evidence of the divergence): against a device that opens
as fd 3, accepts the format, grants and maps both buffers but rejects
the first enqueue, `create_stream` returns null, yet the trace contains
the open and both mappings and no unmap or close whatsoever — the
failure path never runs the device destructor (`create_stream` returns
without `delete dev`), so the two mappings and the open handle leak,
where the claim requires them to be released. -/
theorem create_stream_enqueue_failure_leaks :
    (create_stream false oe_ok env_qbuf_fail p0).s = none ∧
    Event.openEv 3 ∈ (create_stream false oe_ok env_qbuf_fail p0).events ∧
    (create_stream false oe_ok env_qbuf_fail p0).events.countP
      (fun e => is_mmap e) = 2 ∧
    (create_stream false oe_ok env_qbuf_fail p0).events.all
      (fun e => !is_munmap e && !is_close e) = true := by decide

/-- Counterexample for C2: with every control operation succeeding but
`VIDIOC_S_PARM` (set-framerate) failing non-transiently, `create_stream`
does NOT return none — it returns a stream, with the negotiated fps
recorded as 0 — refuting the claim that a set-framerate failure aborts
construction. -/
theorem set_framerate_failure_does_not_abort :
    (create_stream false oe_ok env_sparm_fail p0).s.isSome = true ∧
    (create_stream false oe_ok env_sparm_fail p0).p.fps = 0 := by decide

/-- Claim C2 (amended): a constructed stream implies that every
set-format, request-buffers, query-buffer, buffer-mapping and enqueue
operation succeeded — any such failure aborts construction — while a
set-framerate failure does not abort: construction still succeeds and
the reported framerate is 0. -/
theorem create_stream_abort_conditions (pn : Bool) (oe : open_env)
    (env : init_env) (p : params)
    (h : (create_stream pn oe env p).s.isSome = true) :
    env.sfmt.ok = true ∧ env.sfmt.retFmt = p.fmt ∧ env.reqbufs.ok = true ∧
    (∀ j, j < env.reqbufs.retCount % 4294967296 →
      (env.querybuf j).ok = true ∧ (env.mmap j).ok = true ∧
        env.qbuf j = true) ∧
    (env.sparm.ok = false → (create_stream pn oe env p).p.fps = 0) := by
  obtain ⟨fd, hfd, hinit, hp⟩ := create_stream_some_inv pn oe env p h
  have hs := init_stream_none_spec env _ p hinit
  refine ⟨hs.1, hs.2.1, hs.2.2.1, hs.2.2.2.2.1, ?_⟩
  intro hsp
  rw [hp, hs.2.2.2.2.2.1]
  simp [set_framerate, hsp]

/-- Witness for C2's amended statement on the concrete set-framerate
failure device. -/
theorem create_stream_abort_conditions_witness :
    (create_stream false oe_ok env_sparm_fail p0).p.fps = 0 :=
  (create_stream_abort_conditions false oe_ok env_sparm_fail p0
    (by decide)).2.2.2.2 (by decide)

/-- Counterexample for C4: a device that accepts the requested format
but reports width 66176 (a u32 that does not fit `uint16_t`) yields a
successful construction whose negotiated width is 640 = 66176 mod 2^16,
not the device's returned value — refuting "the device's returned
values, whatever they are". -/
theorem negotiated_width_truncated_to_u16 :
    (create_stream false oe_ok env_bigw p0).s.isSome = true ∧
    (create_stream false oe_ok env_bigw p0).p.w = 640 ∧
    (create_stream false oe_ok env_bigw p0).p.w ≠ 66176 := by decide

/-- Claim C4 (amended): when the set-format control operation itself
succeeds, format negotiation fails exactly when the device's returned
pixel-format token differs from the request (and then `create_stream`
returns none); on success the params' pixel-format is unchanged while
width and height are overwritten with the device's returned values
reduced modulo 2^16 (they are stored into `uint16_t` fields), with no
re-validation against the original request. -/
theorem format_negotiation_characterization (env : init_env) (dev : device)
    (p : params) (hok : env.sfmt.ok = true) :
    ((init_stream env dev p).err = some init_err.format_unsupported ↔
      env.sfmt.retFmt ≠ p.fmt) ∧
    ((init_stream env dev p).err = none →
      (init_stream env dev p).p.fmt = p.fmt ∧
      (init_stream env dev p).p.w = env.sfmt.retW % 65536 ∧
      (init_stream env dev p).p.h = env.sfmt.retH % 65536) ∧
    (env.sfmt.retFmt ≠ p.fmt → ∀ pn oe,
      (create_stream pn oe env p).s = none) := by
  refine ⟨?_, ?_, ?_⟩
  · rw [init_stream_fmt_iff]
    simp [hok]
  · intro hnone
    have hs := init_stream_none_spec env dev p hnone
    exact ⟨hs.2.2.2.2.2.2.1, hs.2.2.2.2.2.2.2.1, hs.2.2.2.2.2.2.2.2⟩
  · intro hne pn oe
    by_contra hcontra
    have hsome : (create_stream pn oe env p).s.isSome = true := by
      cases hcs : (create_stream pn oe env p).s with
      | none => exact absurd hcs hcontra
      | some st => simp
    obtain ⟨fd, hfd, hinit, hp⟩ := create_stream_some_inv pn oe env p hsome
    have hs := init_stream_none_spec env _ p hinit
    exact hne hs.2.1

/-- Witness for C4's amended statement on the all-accepting device. -/
theorem format_negotiation_characterization_witness :
    (init_stream env_ok dev_fresh p0).err =
        some init_err.format_unsupported ↔
      env_ok.sfmt.retFmt ≠ p0.fmt :=
  (format_negotiation_characterization env_ok dev_fresh p0 (by decide)).1

/-- Counterexample for C6: a device granting only 1 buffer (the code
requests 2 but then uses the count the device wrote back) still yields a
successful `create_stream` — with exactly 1 mapped buffer, not 2. -/
theorem buffer_pool_size_follows_device_grant :
    (create_stream false oe_ok env_count1 p0).s.isSome = true ∧
    Option.map (fun st => st.dev.frame.bufcnt)
      (create_stream false oe_ok env_count1 p0).s = some 1 ∧
    Option.map (fun st => st.dev.frame.buf.length)
      (create_stream false oe_ok env_count1 p0).s = some 1 := by decide

/-- Claim C6 (amended): when the device grants the 2 requested buffers
(and, as the OS guarantees, successful mappings have non-zero length and
distinct addresses), a successful `create_stream` leaves exactly 2
buffers mapped, each of non-zero size and with distinct memory regions,
and the pool size stays 2 across `start`, `put_frame` and `get_frame`
for the stream's lifetime. -/
theorem buffer_pool_two_mapped_distinct (oe : open_env) (env : init_env)
    (p : params) (fd : Nat)
    (ho1 : oe.stat_ok = true) (ho2 : oe.is_chr = true)
    (ho3 : oe.open_fd = some fd)
    (h1 : env.sfmt.ok = true) (h2 : env.sfmt.retFmt = p.fmt)
    (h3 : env.reqbufs.ok = true)
    (hcnt : env.reqbufs.retCount % 4294967296 = 2)
    (h4 : env.calloc_ok = true)
    (hq0 : (env.querybuf 0).ok = true) (hq1 : (env.querybuf 1).ok = true)
    (hm0 : (env.mmap 0).ok = true) (hm1 : (env.mmap 1).ok = true)
    (hb0 : env.qbuf 0 = true) (hb1 : env.qbuf 1 = true)
    (hl0 : (env.querybuf 0).length % 4294967296 ≠ 0)
    (hl1 : (env.querybuf 1).length % 4294967296 ≠ 0)
    (hd : (env.mmap 0).addr ≠ (env.mmap 1).addr) :
    Option.map (fun st => st.dev.frame.bufcnt)
      (create_stream false oe env p).s = some 2 ∧
    Option.map (fun st => st.dev.frame.buf.length)
      (create_stream false oe env p).s = some 2 ∧
    (∀ st, (create_stream false oe env p).s = some st →
      (∀ b ∈ st.dev.frame.buf, b.size ≠ 0) ∧
      st.dev.frame.buf.Pairwise (fun a b => a.data ≠ b.data) ∧
      (∀ ok, ((start ok st).2.1).dev.frame.bufcnt = 2) ∧
      (put_frame st).1.dev.frame.bufcnt = 2 ∧
      (∀ polls dq out r, get_frame polls dq st out = some r →
        r.s.dev.frame.bufcnt = 2)) := by
  have h5 : ∀ j, j < env.reqbufs.retCount % 4294967296 →
      (env.querybuf j).ok = true ∧ (env.mmap j).ok = true := by
    rw [hcnt]
    intro j hj
    rcases j with _ | (_ | j)
    · exact ⟨hq0, hm0⟩
    · exact ⟨hq1, hm1⟩
    · omega
  have h6 : ∀ j, j < env.reqbufs.retCount % 4294967296 →
      env.qbuf j = true := by
    rw [hcnt]
    intro j hj
    rcases j with _ | (_ | j)
    · exact hb0
    · exact hb1
    · omega
  have hio := init_stream_ok_spec env ⟨fd, ⟨0, 0, 0, []⟩, zero_buf⟩ p
    h1 h2 h3 h4 h5 h6
  have hcs := create_stream_ok_spec oe env p fd ho1 ho2 ho3 hio.1
  have hms : mapped_slots env 0 (env.reqbufs.retCount % 4294967296) =
      [⟨(env.mmap 0).addr, (env.querybuf 0).length % 4294967296⟩,
       ⟨(env.mmap 1).addr, (env.querybuf 1).length % 4294967296⟩] := by
    rw [hcnt, mapped_slots, mapped_slots, mapped_slots]
  rw [hcs.1]
  refine ⟨by simp [hio.2.1, hcnt], by simp [hio.2.2.1, hms], ?_⟩
  intro st hst
  obtain rfl : st = ⟨(init_stream env ⟨fd, ⟨0, 0, 0, []⟩, zero_buf⟩ p).dev⟩ :=
    (Option.some.inj hst).symm
  have hbuf : (init_stream env ⟨fd, ⟨0, 0, 0, []⟩, zero_buf⟩ p).dev.frame.buf =
      [⟨(env.mmap 0).addr, (env.querybuf 0).length % 4294967296⟩,
       ⟨(env.mmap 1).addr, (env.querybuf 1).length % 4294967296⟩] := by
    rw [hio.2.2.1, hms]
  have hbc : (init_stream env ⟨fd, ⟨0, 0, 0, []⟩, zero_buf⟩ p).dev.frame.bufcnt
      = 2 := by rw [hio.2.1, hcnt]
  refine ⟨?_, ?_, fun ok => hbc, ?_, ?_⟩
  · intro b hb
    rw [hbuf] at hb
    simp only [List.mem_cons, List.not_mem_nil, or_false] at hb
    rcases hb with rfl | rfl
    · exact hl0
    · exact hl1
  · rw [hbuf]
    simp [List.pairwise_cons, hd]
  · unfold put_frame
    split <;> exact hbc
  · intro polls dq out r hr
    have := get_frame_stable polls dq _ out r hr
    rw [this.1]
    exact hbc

/-- Witness for C6's amended statement on the all-accepting device. -/
theorem buffer_pool_two_mapped_distinct_witness :
    Option.map (fun st => st.dev.frame.bufcnt)
      (create_stream false oe_ok env_ok p0).s = some 2 :=
  (buffer_pool_two_mapped_distinct oe_ok env_ok p0 3 (by decide) (by decide)
    (by decide) (by decide) (by decide) (by decide) (by decide) (by decide)
    (by decide) (by decide) (by decide) (by decide) (by decide) (by decide)
    (by decide) (by decide) (by decide)).1

end camera
